import Mathlib

/-!
# UploadAndVisualize: the client script `static/script.js`

A shallow embedding of the page script: the DOM elements the script touches
are fields of one state record `Dom`, every handler and render function is a
function on that record, and a thrown JavaScript exception is returned next to
the state that was reached when it was thrown.

Conventions of the embedding

* an absent (or `null`) JSON field is `none`;
* an array is a `List`, `slice(0, k)` is `List.take k`, `join(sep)` is
  `String.intercalate sep`, `forEach` is a left fold over the state;
* a table row is the string assigned to its `innerHTML`; what the browser
  reads back from that markup for the reasons cell (its `title` and its text)
  follows the attribute value and data states of the HTML tokenizer, and is
  `none` where a character reference, NUL or a carriage return would have to
  be interpreted;
* a JavaScript number is the rational it stands for; `toBinary64` is the
  rounding every arithmetic operation applies (round to nearest, ties to
  even), and `NaN` and `Infinity` appear only as the texts `toFixed` prints;
* the charting and 3D libraries are collaborators: a chart instance is a
  number (its creation rank) and its life is the log of `new Chart` and
  `destroy` calls; a 3D scene is the list of objects passed to `scene.add`;
* the animation loop, the resize listener and the random depth jitter of
  `create3DVisualization` are not part of the state;
* the numbers of the scene (radius, size, intensity) are exact rationals;
* the message of a `TypeError` raised by the engine is the one V8 gives.
-/

namespace UploadAndVisualize

/-! ## Data model -/

/-- One entry of `results` in the `/predict` response. -/
structure RecordResult where
  index : Int
  prediction : String
  threat_level : String
  reasons : Option (List String)
  severity_score : Option ℚ
  deriving DecidableEq, Repr

/-- The parsed JSON object of the `/predict` response; every field may be absent. -/
structure PredictionResponse where
  error : Option String
  total_records : Option Int
  intrusion_count : Option Int
  normal_count : Option Int
  intrusion_percentage : Option ℚ
  normal_percentage : Option ℚ
  results : Option (List RecordResult)
  deriving DecidableEq, Repr

/-- A file of a `FileList`. -/
structure File where
  name : String
  size : Nat
  deriving DecidableEq, Repr

/-- A thrown JavaScript error, by its `message`. -/
structure JsError where
  message : String
  deriving DecidableEq, Repr

/-- The text content of a stat field: the markup's own text, or what
`displayResults` assigned (`el.textContent = v`, or the template of `v`
followed by a percent sign). -/
inductive StatText where
  | markup (s : String)
  | count (v : Option Int)
  | percent (v : Option ℚ)
  deriving DecidableEq, Repr

/-- A call on the charting library, in program order. -/
inductive ChartEvent where
  | created (id : Nat) (normal_count intrusion_count : Option Int)
  | destroyed (id : Nat)
  deriving DecidableEq, Repr

/-- A satellite mesh of the 3D scene, as built in the `sliced.forEach` body:
the record it stands for, its place `index` of `count` on the circle (the
angle is `index / count` of a turn), and the quantities derived from the
severity score, in exact arithmetic. -/
structure SatelliteNode where
  record : RecordResult
  index : Nat
  count : Nat
  isIntrusion : Bool
  severityScore : ℚ
  radius : ℚ
  nodeSize : ℚ
  color : Nat
  emissiveIntensity : ℚ
  deriving DecidableEq, Repr

/-- An object passed to `scene.add`. -/
inductive SceneObject where
  | ambientLight
  | pointLight
  | centralNode
  | node (n : SatelliteNode)
  | line (target : SatelliteNode) (color : Nat) (opacity : ℚ)
  deriving DecidableEq, Repr

/-- The page state the script reads and writes. -/
structure Dom where
  dropZoneDragOver : Bool
  fileInputFiles : List File
  fileNameText : String
  fileNameDisplay : String
  btnTextDisplay : String
  loadingSpinnerDisplay : String
  analyzeBtnDisabled : Bool
  alerts : List String
  resultsSectionDisplay : String
  scrollRequests : Nat
  totalRecords : StatText
  intrusionCount : StatText
  normalCount : StatText
  intrusionPercentage : StatText
  normalPercentage : StatText
  pieChart : Option Nat
  chartLog : List ChartEvent
  threeDView : List (List SceneObject)
  resultsTableBody : List String
  deriving DecidableEq, Repr

/-- A page before any interaction: nothing selected, the submit control
enabled, the results section hidden, no chart and no scene. The markup is not
part of the script, so this is one possible page among those the handlers
accept; the general statements below quantify over every `Dom`. -/
def Dom.initial : Dom :=
  { dropZoneDragOver := false
    fileInputFiles := []
    fileNameText := ""
    fileNameDisplay := "none"
    btnTextDisplay := "inline"
    loadingSpinnerDisplay := "none"
    analyzeBtnDisabled := false
    alerts := []
    resultsSectionDisplay := "none"
    scrollRequests := 0
    totalRecords := StatText.markup "0"
    intrusionCount := StatText.markup "0"
    normalCount := StatText.markup "0"
    intrusionPercentage := StatText.markup "0%"
    normalPercentage := StatText.markup "0%"
    pieChart := none
    chartLog := []
    threeDView := []
    resultsTableBody := [] }

/-! ## Table rendering (`populateTable`) -/

/-- The `reasonsArray` of a row: `result.reasons || []`. -/
def reasonsArray (result : RecordResult) : List String :=
  match result.reasons with
  | some rs => rs
  | none => []

/-- The `reasonsText` of a row. -/
def reasonsText (result : RecordResult) : String :=
  if (reasonsArray result).length ≠ 0 then
    " • ".intercalate ((reasonsArray result).take 3)
  else if result.prediction = "Intrusion" then
    "Pattern similar to known attack traffic"
  else
    "No obvious anomaly"

/-- The `title` attribute of the reasons cell: `reasonsArray.join(' | ')`. -/
def reasonsTitle (result : RecordResult) : String :=
  " | ".intercalate (reasonsArray result)

/-- The `threatClass` of a row. -/
def threatClass (result : RecordResult) : String :=
  if result.threat_level = "High" then "threat-high" else "threat-low"

/-- The `statusIcon` of a row. -/
def statusIcon (result : RecordResult) : String :=
  if result.prediction = "Intrusion" then "⚠️" else "✅"

/-- The `innerHTML` of a data row. -/
def rowInnerHTML (result : RecordResult) : String :=
  "\n            <td>" ++ toString result.index ++ "</td>" ++
  "\n            <td>" ++ statusIcon result ++ " " ++ result.prediction ++ "</td>" ++
  "\n            <td class=\"" ++ threatClass result ++ "\">" ++ result.threat_level ++ "</td>" ++
  "\n            <td class=\"reason-cell\" title=\"" ++ reasonsTitle result ++ "\">" ++
  "\n                " ++ reasonsText result ++
  "\n            </td>" ++
  "\n        "

/-- The text of the summary row for `length` results. -/
def summaryText (length : Nat) : String :=
  "... and " ++ toString (length - 100) ++ " more results"

/-- The `innerHTML` of the summary row for `length` results. -/
def summaryInnerHTML (length : Nat) : String :=
  "\n            <td colspan=\"4\" style=\"text-align: center; color: var(--text-secondary);\">" ++
  "\n                " ++ summaryText length ++
  "\n            </td>" ++
  "\n        "

/-- The statement `tableBody.appendChild(row)`. -/
def appendRow (d : Dom) (row : String) : Dom :=
  { d with resultsTableBody := d.resultsTableBody ++ [row] }

/-- The function `populateTable(results)`; with `results` undefined the call
`results.slice` throws after the body was cleared. -/
def populateTable (results : Option (List RecordResult)) (d : Dom) : Dom × Option JsError :=
  let d := { d with resultsTableBody := [] }
  match results with
  | none => (d, some ⟨"Cannot read properties of undefined (reading 'slice')"⟩)
  | some results =>
    let displayResults := results.take 100
    let d := displayResults.foldl (fun d result => appendRow d (rowInnerHTML result)) d
    let d := if results.length > 100 then appendRow d (summaryInnerHTML results.length) else d
    (d, none)

/-! ### The reasons cell as the browser reads it -/

/-- The characters of a row field whose reading is not modelled: the
ampersand of a character reference, NUL, and the carriage return that the
input stream turns into a line feed. -/
def unmodelled (c : Char) : Bool :=
  c == '&' || c == Char.ofNat 0 || c == Char.ofNat 13

/-- The attribute value (double-quoted) state of the HTML tokenizer, entered
after the opening quote: the value read up to the closing quote, and the input
left after that quote. -/
def readAttributeValue : List Char → Option (List Char × List Char)
  | [] => none
  | c :: cs =>
    if c = '"' then some ([], cs)
    else if unmodelled c then none
    else (readAttributeValue cs).map (fun r => (c :: r.1, r.2))

/-- The data state of the HTML tokenizer: the text read up to the next tag (or
the end of the input), and the input left, which starts with that tag. -/
def readText : List Char → Option (List Char × List Char)
  | [] => some ([], [])
  | c :: cs =>
    if c = '<' then some ([], c :: cs)
    else if unmodelled c then none
    else (readText cs).map (fun r => (c :: r.1, r.2))

/-- Whether a field put into the data of a cell is read back as text: it
holds no tag opening and nothing unmodelled. -/
def plainText (s : String) : Bool :=
  s.data.all (fun c => c != '<' && !unmodelled c)

/-- The markup of a data row up to the opening quote of the `title`
attribute of the reasons cell. -/
def rowHead (result : RecordResult) : String :=
  "\n            <td>" ++ toString result.index ++ "</td>" ++
  "\n            <td>" ++ statusIcon result ++ " " ++ result.prediction ++ "</td>" ++
  "\n            <td class=\"" ++ threatClass result ++ "\">" ++ result.threat_level ++ "</td>" ++
  "\n            <td class=\"reason-cell\" title=\""

/-- The markup of a data row after the opening quote of the `title`
attribute of the reasons cell. -/
def rowTail (result : RecordResult) : String :=
  reasonsTitle result ++ "\">" ++
  "\n                " ++ reasonsText result ++
  "\n            </td>" ++
  "\n        "

/-- The hover text of the reasons cell, as the browser reads it from the
markup of the row: with plain fields in the first three cells the tokenizer
reaches the opening quote of `title` in `rowInnerHTML` and reads the value
from there. -/
def cellTitle (result : RecordResult) : Option String :=
  if plainText result.prediction && plainText result.threat_level then
    (readAttributeValue (rowTail result).data).map (fun r => String.mk r.1)
  else none

/-- The text the reasons cell starts with, as the browser reads it from the
markup of the row, and whether the cell is closed right after that text (so
that the text is all the cell holds); the start tag of the cell has to end
right after the `title` value. -/
def cellText (result : RecordResult) : Option (String × Bool) :=
  if plainText result.prediction && plainText result.threat_level then
    match readAttributeValue (rowTail result).data with
    | some (_, '>' :: rest) =>
      (readText rest).map (fun r => (String.mk r.1, "</td>".data.isPrefixOf r.2))
    | _ => none
  else none

/-! ## Chart rendering (`createPieChart`) -/

/-- The number of `new Chart` calls in a log: the rank of the next instance. -/
def chartsCreated : List ChartEvent → Nat
  | [] => 0
  | ChartEvent.created _ _ _ :: log => chartsCreated log + 1
  | ChartEvent.destroyed _ :: log => chartsCreated log

/-- The function `createPieChart(data)`: destroy the chart held in `pieChart`
if there is one, then build a new one and hold it. -/
def createPieChart (data : PredictionResponse) (d : Dom) : Dom :=
  let d :=
    match d.pieChart with
    | some chart => { d with chartLog := d.chartLog ++ [ChartEvent.destroyed chart] }
    | none => d
  let id := chartsCreated d.chartLog
  { d with
    pieChart := some id
    chartLog := d.chartLog ++ [ChartEvent.created id data.normal_count data.intrusion_count] }

/-- Whether an instance was created in the log. -/
def wasCreated (log : List ChartEvent) (id : Nat) : Bool :=
  log.any (fun e => match e with
    | ChartEvent.created i _ _ => i == id
    | ChartEvent.destroyed _ => false)

/-- Whether an instance was destroyed in the log. -/
def wasDestroyed (log : List ChartEvent) (id : Nat) : Bool :=
  log.any (fun e => match e with
    | ChartEvent.created _ _ _ => false
    | ChartEvent.destroyed i => i == id)

/-- The live instances of a log: created and not destroyed, in creation order. -/
def liveCharts (log : List ChartEvent) : List Nat :=
  (List.range (chartsCreated log)).filter (fun id => wasCreated log id && !wasDestroyed log id)

/-- The log of a run of `createPieChart` calls that starts with instance `i`
and no chart held: every instance but the last is destroyed right after its
creation and before the next creation. -/
def chartTrace : Nat → List PredictionResponse → List ChartEvent
  | _, [] => []
  | i, [data] => [ChartEvent.created i data.normal_count data.intrusion_count]
  | i, data :: next :: rest =>
    ChartEvent.created i data.normal_count data.intrusion_count
      :: ChartEvent.destroyed i :: chartTrace (i + 1) (next :: rest)

/-! ### The tooltip label callback -/

/-- The integer nearest to a rational, the even one of the two when it lies
half way. -/
def roundHalfEven (m : ℚ) : ℤ :=
  if m - ⌊m⌋ < 1 / 2 then ⌊m⌋
  else if 1 / 2 < m - ⌊m⌋ then ⌊m⌋ + 1
  else if ⌊m⌋ % 2 = 0 then ⌊m⌋
  else ⌊m⌋ + 1

/-- The binary64 number nearest to a rational (round to nearest, ties to
even): 53 significant bits, least exponent -1022. A result of `2 ^ 1024` or
more stands for `Infinity`, which the users of this function test. -/
def toBinary64 (x : ℚ) : ℚ :=
  if x = 0 then 0
  else
    let e : ℤ := max (Int.log 2 |x|) (-1022)
    let ulp : ℚ := (2 : ℚ) ^ (e - 52)
    roundHalfEven (x / ulp) * ulp

/-- The integer `n` that `x.toFixed(2)` picks for a non-negative `x`: the one
with `n / 100` nearest to `x`, the larger of the two when there are two. -/
def hundredthsOf (x : ℚ) : ℕ := ⌊x * 100 + 1 / 2⌋₊

/-- The text `toFixed(2)` prints for the integer `n` it picked: the digits of
`n`, padded with zeros to three digits, with the point before the last two. -/
def fixed2 (n : ℕ) : String :=
  let m := (toString n).data
  let m := List.replicate (3 - m.length) '0' ++ m
  String.mk (m.take (m.length - 2) ++ ['.'] ++ m.drop (m.length - 2))

/-- The `total` of the callback: `context.dataset.data.reduce((a, b) => a + b, 0)`
on the numbers of the data set. -/
def datasetTotal (data : List ℕ) : ℚ :=
  data.foldl (fun a b => toBinary64 (a + toBinary64 (b : ℚ))) 0

/-- The `percentage` of the callback, `((value / total) * 100).toFixed(2)`, for
a slice value and a data set of natural numbers. It is `none` where a number
is `Infinity` on the way in or where `toFixed` leaves the fixed notation
(from `10 ^ 21` on); a zero `total` gives `NaN` or `Infinity`. -/
def percentage (value : ℕ) (data : List ℕ) : Option String :=
  let total := datasetTotal data
  if 2 ^ 1024 ≤ toBinary64 (value : ℚ) ∨ 2 ^ 1024 ≤ total then none
  else if total = 0 then (if toBinary64 (value : ℚ) = 0 then some "NaN" else some "Infinity")
  else if 10 ^ 21 ≤ toBinary64 (toBinary64 (toBinary64 (value : ℚ) / total) * 100) then none
  else some (fixed2 (hundredthsOf (toBinary64 (toBinary64 (toBinary64 (value : ℚ) / total) * 100))))

/-- The tooltip label callback, for the label and the value of a slice:
the label, the value and the percentage between brackets. It is `none` for a
value of `2 ^ 53` or more, whose printing is not modelled. -/
def tooltipLabel (label : String) (value : ℕ) (data : List ℕ) : Option String :=
  if 2 ^ 53 ≤ value then none
  else (percentage value data).map
    (fun percentage => label ++ ": " ++ toString value ++ " (" ++ percentage ++ "%)")

/-! ## 3D rendering (`create3DVisualization`) -/

/-- The `severityScore` of a record:
`record.severity_score || (record.reasons ? record.reasons.length : 0)`. -/
def severityScore (record : RecordResult) : ℚ :=
  let fallback : ℚ :=
    match record.reasons with
    | some rs => rs.length
    | none => 0
  match record.severity_score with
  | some s => if s ≠ 0 then s else fallback
  | none => fallback

/-- The mesh built for `record` at place `index` of `count`. -/
def buildNode (count : Nat) (record : RecordResult) (index : Nat) : SatelliteNode :=
  let isIntrusion : Bool := record.prediction = "Intrusion"
  let severityScore := severityScore record
  let baseRadius : ℚ := if isIntrusion then 7 else 5
  { record := record
    index := index
    count := count
    isIntrusion := isIntrusion
    severityScore := severityScore
    radius := baseRadius + severityScore * (1 / 4)
    nodeSize := 1 / 4 + min (severityScore * (3 / 20)) (3 / 5)
    color := if isIntrusion then 0xff0055 else 0x00ff88
    emissiveIntensity := if isIntrusion then 3 / 5 else 3 / 10 }

/-- The connection line from the central node to a satellite. -/
def buildLine (n : SatelliteNode) : SceneObject :=
  SceneObject.line n (if n.isIntrusion then 0xff0055 else 0x00ff88)
    (if n.isIntrusion then 3 / 5 else 3 / 10)

/-- The scene built by `create3DVisualization(data)`, in `scene.add` order. -/
def buildScene (data : PredictionResponse) : List SceneObject :=
  let results := data.results.getD []
  let maxNodes := 80
  let sliced := results.take maxNodes
  let scene := [SceneObject.ambientLight, SceneObject.pointLight, SceneObject.centralNode]
  sliced.enum.foldl
    (fun scene ir =>
      let node := buildNode sliced.length ir.2 ir.1
      scene ++ [SceneObject.node node, buildLine node])
    scene

/-- The function `create3DVisualization(data)`: the container is emptied and
receives the canvas of the new scene. -/
def create3DVisualization (data : PredictionResponse) (d : Dom) : Dom :=
  { d with threeDView := [buildScene data] }

/-- The satellite meshes of a scene, in order. -/
def satellites : List SceneObject → List SatelliteNode
  | [] => []
  | SceneObject.node n :: scene => n :: satellites scene
  | _ :: scene => satellites scene

/-- The targets of the connection lines of a scene, in order. -/
def lineTargets : List SceneObject → List SatelliteNode
  | [] => []
  | SceneObject.line n _ _ :: scene => n :: lineTargets scene
  | _ :: scene => lineTargets scene

/-- The number of central nodes of a scene. -/
def centralNodes (scene : List SceneObject) : Nat :=
  scene.count SceneObject.centralNode

/-- The two objects a record adds to the scene. -/
def nodeAndLine (n : SatelliteNode) : List SceneObject :=
  [SceneObject.node n, buildLine n]

/-- The satellites `create3DVisualization` builds for a response. -/
def slicedNodes (data : PredictionResponse) : List SatelliteNode :=
  ((data.results.getD []).take 80).enum.map
    (fun ir => buildNode ((data.results.getD []).take 80).length ir.2 ir.1)

/-! ## The render pass (`displayResults`) -/

/-- The function `displayResults(data)`. -/
def displayResults (data : PredictionResponse) (d : Dom) : Dom × Option JsError :=
  let d := { d with resultsSectionDisplay := "block", scrollRequests := d.scrollRequests + 1 }
  let d := { d with
    totalRecords := StatText.count data.total_records
    intrusionCount := StatText.count data.intrusion_count
    normalCount := StatText.count data.normal_count
    intrusionPercentage := StatText.percent data.intrusion_percentage
    normalPercentage := StatText.percent data.normal_percentage }
  let d := createPieChart data d
  let d := create3DVisualization data d
  populateTable data.results d

/-! ## Submission -/

/-- What the two awaits of the submit handler produce: `fetch` rejects,
`response.json()` rejects, or a JSON value is parsed (`none` is JSON `null`). -/
inductive FetchOutcome where
  | rejected (error : JsError)
  | unparseable (error : JsError)
  | parsed (data : Option PredictionResponse)
  deriving DecidableEq, Repr

/-- The call `alert(text)`. -/
def alert (text : String) (d : Dom) : Dom :=
  { d with alerts := d.alerts ++ [text] }

/-- The `try` block of the submit handler: the state it reaches and the error
it throws, if any. -/
def submitTry (outcome : FetchOutcome) (d : Dom) : Dom × Option JsError :=
  match outcome with
  | FetchOutcome.rejected error => (d, some error)
  | FetchOutcome.unparseable error => (d, some error)
  | FetchOutcome.parsed none =>
    (d, some ⟨"Cannot read properties of null (reading 'error')"⟩)
  | FetchOutcome.parsed (some data) =>
    match data.error with
    | some message =>
      if message ≠ "" then (alert ("Error: " ++ message) d, none)
      else displayResults data d
    | none => displayResults data d

/-- The submit handler of `uploadForm`, once its awaits have settled. -/
def submitHandler (outcome : FetchOutcome) (d : Dom) : Dom :=
  let d := { d with
    btnTextDisplay := "none"
    loadingSpinnerDisplay := "inline"
    analyzeBtnDisabled := true }
  let tried := submitTry outcome d
  let d :=
    match tried.2 with
    | some error => alert ("Error analyzing data: " ++ error.message) tried.1
    | none => tried.1
  { d with
    btnTextDisplay := "inline"
    loadingSpinnerDisplay := "none"
    analyzeBtnDisabled := false }

/-! ## File intake -/

/-- The function `displayFileName(name)`. -/
def displayFileName (name : String) (d : Dom) : Dom :=
  { d with fileNameText := "Selected: " ++ name, fileNameDisplay := "block" }

/-- The `dragover` handler of the drop zone. -/
def dragoverHandler (d : Dom) : Dom :=
  { d with dropZoneDragOver := true }

/-- The `dragleave` handler of the drop zone. -/
def dragleaveHandler (d : Dom) : Dom :=
  { d with dropZoneDragOver := false }

/-- The `drop` handler of the drop zone, for `e.dataTransfer.files`. -/
def dropHandler (files : List File) (d : Dom) : Dom :=
  let d := { d with dropZoneDragOver := false }
  if h : files.length > 0 then
    displayFileName (files[0]).name { d with fileInputFiles := files }
  else d

/-- The `change` handler of the file input, for `e.target.files`. -/
def changeHandler (files : List File) (d : Dom) : Dom :=
  if h : files.length > 0 then displayFileName (files[0]).name d else d

/-! ## Properties of the table -/

/-- Appending rows in a `forEach` adds the rows in order and touches nothing
else. -/
theorem foldl_appendRow (f : RecordResult → String) (l : List RecordResult) (d : Dom) :
    l.foldl (fun d result => appendRow d (f result)) d
      = { d with resultsTableBody := d.resultsTableBody ++ l.map f } := by
  induction l generalizing d with
  | nil => simp
  | cons r l ih =>
    rw [List.foldl_cons, ih]
    simp [appendRow]

/-- The body written by `populateTable` on a list. -/
theorem populateTable_body (results : List RecordResult) (d : Dom) :
    (populateTable (some results) d).1.resultsTableBody
      = (results.take 100).map rowInnerHTML
        ++ (if 100 < results.length then [summaryInnerHTML results.length] else []) := by
  unfold populateTable
  simp only [foldl_appendRow]
  by_cases h : 100 < results.length <;> simp [h, appendRow]

/-- C1. For every list `results` of length `n`, `populateTable` discards the
former rows of the body and leaves the data rows of the first 100 results, in
response order (`min n 100` of them), followed by exactly one summary row
reading `... and (n - 100) more results` when `n > 100` and by nothing when
`n <= 100`; 145 results give the text `... and 45 more results`. -/
theorem populateTable_row_count (results : List RecordResult) (d : Dom) :
    (populateTable (some results) d).1.resultsTableBody
        = (results.take 100).map rowInnerHTML
          ++ (if 100 < results.length then [summaryInnerHTML results.length] else [])
      ∧ ((results.take 100).map rowInnerHTML).length = min results.length 100
      ∧ (populateTable (some results) d).1.resultsTableBody.length
          = min results.length 100 + (if 100 < results.length then 1 else 0)
      ∧ summaryInnerHTML results.length
          = "\n            <td colspan=\"4\" style=\"text-align: center; color: var(--text-secondary);\">\n                "
            ++ ("... and " ++ toString (results.length - 100) ++ " more results")
            ++ "\n            </td>\n        "
      ∧ summaryText 145 = "... and 45 more results"
      ∧ (populateTable (some results) d).2 = none := by
  refine ⟨populateTable_body results d, ?_, ?_, ?_, by decide, rfl⟩
  · simp [List.length_take, Nat.min_comm]
  · rw [populateTable_body]
    by_cases h : 100 < results.length <;> simp [h, List.length_take, Nat.min_comm]
  · simp [summaryInnerHTML, summaryText, String.append_assoc]

/-- C7. For a result whose `reasons` is empty or absent, the reasons text is
`Pattern similar to known attack traffic` when `prediction` is `Intrusion` and
`No obvious anomaly` when `prediction` is `Normal`; for a result with a
non-empty `reasons` the text is the join of its first reasons, whatever the
prediction, so the fallback is not used. The text is what the row shows in
its reasons cell. -/
theorem reasonsText_fallback (result : RecordResult) :
    ((result.reasons = none ∨ result.reasons = some []) →
        (result.prediction = "Intrusion" →
          reasonsText result = "Pattern similar to known attack traffic")
        ∧ (result.prediction = "Normal" → reasonsText result = "No obvious anomaly"))
      ∧ (∀ rs, result.reasons = some rs → rs ≠ [] →
          reasonsText result = " • ".intercalate (rs.take 3))
      ∧ rowInnerHTML result
          = "\n            <td>" ++ toString result.index ++ "</td>"
            ++ "\n            <td>" ++ statusIcon result ++ " " ++ result.prediction ++ "</td>"
            ++ "\n            <td class=\"" ++ threatClass result ++ "\">"
            ++ result.threat_level ++ "</td>"
            ++ "\n            <td class=\"reason-cell\" title=\"" ++ reasonsTitle result ++ "\">"
            ++ "\n                " ++ reasonsText result
            ++ "\n            </td>" ++ "\n        " := by
  refine ⟨?_, ?_, rfl⟩
  · intro h
    have hlen : (reasonsArray result).length = 0 := by
      rcases h with h | h <;> simp [reasonsArray, h]
    constructor
    · intro hp
      simp [reasonsText, hlen, hp]
    · intro hp
      simp [reasonsText, hlen, hp]
  · intro rs h hne
    have hlen : (reasonsArray result).length ≠ 0 := by
      simpa [reasonsArray, h] using hne
    simp only [reasonsText, if_pos hlen]
    simp [reasonsArray, h]

/-- Witness of C7: an intrusion without reasons, a normal record with an empty
list, and a record with one reason. -/
theorem reasonsText_fallback_witness :
    reasonsText ⟨1, "Intrusion", "High", none, none⟩
        = "Pattern similar to known attack traffic"
      ∧ reasonsText ⟨2, "Normal", "Low", some [], none⟩ = "No obvious anomaly"
      ∧ reasonsText ⟨3, "Intrusion", "High", some ["High error rate"], none⟩
        = "High error rate" :=
  ⟨((reasonsText_fallback ⟨1, "Intrusion", "High", none, none⟩).1 (Or.inl rfl)).1 rfl,
   ((reasonsText_fallback ⟨2, "Normal", "Low", some [], none⟩).1 (Or.inr rfl)).2 rfl,
   ((reasonsText_fallback ⟨3, "Intrusion", "High", some ["High error rate"], none⟩).2.1
      ["High error rate"] rfl (by decide)).trans (by decide)⟩

theorem rowInnerHTML_split (result : RecordResult) :
    rowInnerHTML result = rowHead result ++ rowTail result := by
  simp only [rowInnerHTML, rowHead, rowTail, String.append_assoc]

theorem readAttributeValue_append (v rest : List Char)
    (h : ∀ c ∈ v, c ≠ '"' ∧ unmodelled c = false) :
    readAttributeValue (v ++ '"' :: rest) = some (v, rest) := by
  induction v with
  | nil => simp [readAttributeValue]
  | cons c v ih =>
    have hc := h c (List.mem_cons_self c v)
    have ih2 := ih (fun c hm => h c (List.mem_cons_of_mem _ hm))
    simp [readAttributeValue, hc.1, hc.2, ih2]

theorem readText_append (t rest : List Char)
    (h : ∀ c ∈ t, c ≠ '<' ∧ unmodelled c = false) :
    readText (t ++ '<' :: rest) = some (t, '<' :: rest) := by
  induction t with
  | nil => simp [readText]
  | cons c t ih =>
    have hc := h c (List.mem_cons_self c t)
    have ih2 := ih (fun c hm => h c (List.mem_cons_of_mem _ hm))
    simp [readText, hc.1, hc.2, ih2]

theorem intercalate_go_chars (P : Char → Prop) (sep : String) (hs : ∀ c ∈ sep.data, P c)
    (rs : List String) (acc : String) (hacc : ∀ c ∈ acc.data, P c)
    (hrs : ∀ r ∈ rs, ∀ c ∈ r.data, P c) :
    ∀ c ∈ (String.intercalate.go acc sep rs).data, P c := by
  induction rs generalizing acc with
  | nil => simpa [String.intercalate.go] using hacc
  | cons r rs ih =>
    rw [String.intercalate.go]
    apply ih
    · intro c hc
      simp only [String.data_append, List.mem_append] at hc
      rcases hc with (hc | hc) | hc
      · exact hacc c hc
      · exact hs c hc
      · exact hrs r (List.mem_cons_self r rs) c hc
    · intro r2 hr2
      exact hrs r2 (List.mem_cons_of_mem _ hr2)

theorem intercalate_chars (P : Char → Prop) (sep : String) (hs : ∀ c ∈ sep.data, P c)
    (rs : List String) (hrs : ∀ r ∈ rs, ∀ c ∈ r.data, P c) :
    ∀ c ∈ (sep.intercalate rs).data, P c := by
  cases rs with
  | nil => simp [String.intercalate]
  | cons r rs =>
    rw [String.intercalate]
    exact intercalate_go_chars P sep hs rs r (hrs r (List.mem_cons_self r rs))
      (fun r2 hr2 => hrs r2 (List.mem_cons_of_mem _ hr2))


theorem rowTail_data (result : RecordResult) :
    (rowTail result).data
      = (reasonsTitle result).data ++ '"' :: '>' ::
          (("\n                ".data ++ (reasonsText result).data ++ "\n            ".data)
            ++ '<' :: ("/td>".data ++ "\n        ".data)) := by
  simp only [rowTail, String.data_append]
  simp

theorem reasons_chars (rs : List String) (sep : String)
    (hs : ∀ c ∈ sep.data, c ≠ '"' ∧ c ≠ '<' ∧ unmodelled c = false)
    (hrs : ∀ r ∈ rs, ∀ c ∈ r.data, c ≠ '"' ∧ c ≠ '<' ∧ unmodelled c = false) :
    ∀ c ∈ (sep.intercalate rs).data, c ≠ '"' ∧ c ≠ '<' ∧ unmodelled c = false :=
  intercalate_chars (fun c => c ≠ '"' ∧ c ≠ '<' ∧ unmodelled c = false) sep hs rs hrs

theorem reasonsCell_read (result : RecordResult) (rs : List String)
    (h : result.reasons = some rs) (hne : rs ≠ [])
    (hp : plainText result.prediction = true) (ht : plainText result.threat_level = true)
    (hrs : ∀ r ∈ rs, ∀ c ∈ r.data, c ≠ '"' ∧ c ≠ '<' ∧ unmodelled c = false) :
    cellText result
        = some ("\n                " ++ " • ".intercalate (rs.take 3) ++ "\n            ", true)
      ∧ cellTitle result = some (" | ".intercalate rs) := by
  have hlen : (reasonsArray result).length ≠ 0 := by
    simpa [reasonsArray, h] using hne
  have htext : reasonsText result = " • ".intercalate (rs.take 3) := by
    simp only [reasonsText, if_pos hlen]
    simp [reasonsArray, h]
  have htitle : reasonsTitle result = " | ".intercalate rs := by
    simp [reasonsTitle, reasonsArray, h]
  have h1 : ∀ c ∈ (" | ".intercalate rs).data, c ≠ '"' ∧ unmodelled c = false := by
    intro c hc
    have := reasons_chars rs " | " (by decide) hrs c hc
    exact ⟨this.1, this.2.2⟩
  have h2 : ∀ c ∈ ("\n                ".data ++ (" • ".intercalate (rs.take 3)).data
      ++ "\n            ".data), c ≠ '<' ∧ unmodelled c = false := by
    intro c hc
    simp only [List.mem_append] at hc
    rcases hc with (hc | hc) | hc
    · revert c
      decide
    · have := reasons_chars (rs.take 3) " • " (by decide)
        (fun r hr => hrs r (List.mem_of_mem_take hr)) c hc
      exact ⟨this.2.1, this.2.2⟩
    · revert c
      decide
  constructor
  · unfold cellText
    rw [rowTail_data, htitle, htext, readAttributeValue_append _ _ h1]
    simp only [hp, ht, Bool.and_self, if_true]
    rw [readText_append _ _ h2]
    simp only [Option.map_some']
    rfl
  · unfold cellTitle
    rw [rowTail_data, htitle, readAttributeValue_append _ _ h1]
    simp [hp, ht]

/-- C8, as stated, fails: a reason holding a double quote ends the `title`
value early, so the hover text of four reasons of which the first is
`flag "S0" seen` is `flag `; and a reason holding `<` opens a tag, so the
cell of the reasons `duration<expected` and `b` starts with the text
`duration` and is not closed after it. -/
theorem reasonsCell_markup_counterexample :
    cellTitle ⟨1, "Intrusion", "High", some ["flag \"S0\" seen", "b", "c", "d"], none⟩
        = some "flag "
      ∧ " | ".intercalate ["flag \"S0\" seen", "b", "c", "d"] = "flag \"S0\" seen | b | c | d"
      ∧ cellText ⟨2, "Intrusion", "High", some ["duration<expected", "b"], none⟩
        = some ("\n                duration", false)
      ∧ " • ".intercalate (["duration<expected", "b"].take (min 2 3))
        = "duration<expected • b" := by
  decide

/-- C8, amended. For a result whose `prediction` and `threat_level` are plain
text and whose non-empty `reasons`, of length `m`, hold no double quote, no
`<`, no `&`, no NUL and no carriage return: the row's markup is read back with
a reasons cell whose text is, between the line breaks and indentation of the
template, the first `min m 3` reasons in order joined by a bullet between
spaces (so at most 3 reasons are shown) and nothing else, and whose `title` is
all `m` reasons in order joined by a bar between spaces. -/
theorem reasonsCell_truncation (result : RecordResult) (rs : List String)
    (h : result.reasons = some rs) (hne : rs ≠ [])
    (hp : plainText result.prediction = true) (ht : plainText result.threat_level = true)
    (hrs : ∀ r ∈ rs, ∀ c ∈ r.data, c ≠ '"' ∧ c ≠ '<' ∧ unmodelled c = false) :
    rowInnerHTML result = rowHead result ++ rowTail result
      ∧ reasonsText result = " • ".intercalate (rs.take (min rs.length 3))
      ∧ (rs.take (min rs.length 3)).length = min rs.length 3
      ∧ (rs.take (min rs.length 3)).length ≤ 3
      ∧ reasonsTitle result = " | ".intercalate rs
      ∧ cellText result
        = some ("\n                " ++ " • ".intercalate (rs.take (min rs.length 3))
            ++ "\n            ", true)
      ∧ cellTitle result = some (" | ".intercalate rs) := by
  have hlen : (reasonsArray result).length ≠ 0 := by
    simpa [reasonsArray, h] using hne
  have htake : rs.take (min rs.length 3) = rs.take 3 := by
    rcases Nat.le_total rs.length 3 with hle | hle
    · rw [Nat.min_eq_left hle, List.take_of_length_le hle, List.take_of_length_le (le_refl _)]
    · rw [Nat.min_eq_right hle]
  have hread := reasonsCell_read result rs h hne hp ht hrs
  refine ⟨rowInnerHTML_split result, ?_, ?_, ?_, ?_, ?_, hread.2⟩
  · rw [htake]
    simp only [reasonsText, if_pos hlen]
    simp [reasonsArray, h]
  · simp [List.length_take]
  · simp [List.length_take]
  · simp [reasonsTitle, reasonsArray, h]
  · rw [htake]
    exact hread.1

/-- Witness of C8, amended: four plain reasons, of which three are shown and
four are in the title. -/
theorem reasonsCell_truncation_witness :
    cellText ⟨7, "Intrusion", "High", some ["a", "b", "c", "d"], none⟩
        = some ("\n                "
            ++ " • ".intercalate (["a", "b", "c", "d"].take (min ["a", "b", "c", "d"].length 3))
            ++ "\n            ", true)
      ∧ cellTitle ⟨7, "Intrusion", "High", some ["a", "b", "c", "d"], none⟩
        = some (" | ".intercalate ["a", "b", "c", "d"]) :=
  ⟨(reasonsCell_truncation ⟨7, "Intrusion", "High", some ["a", "b", "c", "d"], none⟩
      ["a", "b", "c", "d"] rfl (by decide) (by decide) (by decide) (by decide)).2.2.2.2.2.1,
   (reasonsCell_truncation ⟨7, "Intrusion", "High", some ["a", "b", "c", "d"], none⟩
      ["a", "b", "c", "d"] rfl (by decide) (by decide) (by decide) (by decide)).2.2.2.2.2.2⟩

/-! ## Properties of the 3D scene -/

theorem foldl_addNode (count : Nat) (l : List (Nat × RecordResult)) (scene : List SceneObject) :
    l.foldl
        (fun scene ir =>
          let node := buildNode count ir.2 ir.1
          scene ++ [SceneObject.node node, buildLine node])
        scene
      = scene ++ (l.map (fun ir => buildNode count ir.2 ir.1)).flatMap nodeAndLine := by
  induction l generalizing scene with
  | nil => simp
  | cons ir l ih =>
    rw [List.foldl_cons, ih]
    simp [nodeAndLine]

theorem satellites_flatMap (ns : List SatelliteNode) :
    satellites (ns.flatMap nodeAndLine) = ns := by
  induction ns with
  | nil => rfl
  | cons n ns ih =>
    have h : (n :: ns).flatMap nodeAndLine
        = SceneObject.node n :: buildLine n :: ns.flatMap nodeAndLine := rfl
    rw [h]
    simp only [buildLine, satellites, ih]

theorem lineTargets_flatMap (ns : List SatelliteNode) :
    lineTargets (ns.flatMap nodeAndLine) = ns := by
  induction ns with
  | nil => rfl
  | cons n ns ih =>
    have h : (n :: ns).flatMap nodeAndLine
        = SceneObject.node n :: buildLine n :: ns.flatMap nodeAndLine := rfl
    rw [h]
    simp only [buildLine, lineTargets, ih]

theorem centralNodes_flatMap (ns : List SatelliteNode) :
    centralNodes (ns.flatMap nodeAndLine) = 0 := by
  induction ns with
  | nil => rfl
  | cons n ns ih =>
    have h : (n :: ns).flatMap nodeAndLine
        = SceneObject.node n :: buildLine n :: ns.flatMap nodeAndLine := rfl
    rw [h]
    unfold centralNodes at ih ⊢
    simp only [buildLine, List.count_cons, ih]
    simp

theorem buildScene_eq (data : PredictionResponse) :
    buildScene data
      = [SceneObject.ambientLight, SceneObject.pointLight, SceneObject.centralNode]
        ++ (slicedNodes data).flatMap nodeAndLine := by
  unfold buildScene slicedNodes
  simp only [foldl_addNode]

theorem map_record_enum (count : Nat) (l : List RecordResult) (k : Nat) :
    ((l.enumFrom k).map (fun ir => buildNode count ir.2 ir.1)).map SatelliteNode.record = l := by
  induction l generalizing k with
  | nil => rfl
  | cons r l ih =>
    simp only [List.enumFrom_cons, List.map_cons, ih]
    simp [buildNode]

/-- C2. For every response whose `results` has length `n` (0 when `results`
is missing), the container holds the one scene built, which has exactly one
central node and exactly `min n 80` satellites; the satellites stand, in
order, for the first `min n 80` records of the response, and every satellite
is followed by its own connecting line, so there are `min n 80` lines. -/
theorem create3DVisualization_node_count (data : PredictionResponse) (d : Dom) :
    (create3DVisualization data d).threeDView = [buildScene data]
      ∧ centralNodes (buildScene data) = 1
      ∧ (satellites (buildScene data)).length = min (data.results.getD []).length 80
      ∧ (satellites (buildScene data)).map SatelliteNode.record
          = (data.results.getD []).take (min (data.results.getD []).length 80)
      ∧ (satellites (buildScene data)).map SatelliteNode.index
          = List.range (min (data.results.getD []).length 80)
      ∧ lineTargets (buildScene data) = satellites (buildScene data)
      ∧ (lineTargets (buildScene data)).length = min (data.results.getD []).length 80
      ∧ buildScene data
          = [SceneObject.ambientLight, SceneObject.pointLight, SceneObject.centralNode]
            ++ (satellites (buildScene data)).flatMap
                (fun n => [SceneObject.node n, buildLine n]) := by
  have hsat : satellites (buildScene data) = slicedNodes data := by
    rw [buildScene_eq]
    simp [satellites, satellites_flatMap]
  have hlin : lineTargets (buildScene data) = slicedNodes data := by
    rw [buildScene_eq]
    simp [lineTargets, lineTargets_flatMap]
  have hlen : (slicedNodes data).length = min (data.results.getD []).length 80 := by
    simp [slicedNodes, List.length_take, Nat.min_comm]
  have htake : (data.results.getD []).take (min (data.results.getD []).length 80)
      = (data.results.getD []).take 80 := by
    rcases Nat.le_total (data.results.getD []).length 80 with hle | hle
    · rw [Nat.min_eq_left hle, List.take_of_length_le hle, List.take_of_length_le (le_refl _)]
    · rw [Nat.min_eq_right hle]
  refine ⟨rfl, ?_, ?_, ?_, ?_, ?_, ?_, ?_⟩
  · rw [buildScene_eq]
    have h := centralNodes_flatMap (slicedNodes data)
    unfold centralNodes at h ⊢
    simp [List.count_cons, h]
  · rw [hsat, hlen]
  · rw [hsat, htake]
    exact map_record_enum _ _ 0
  · rw [hsat, ← hlen]
    simp only [slicedNodes, List.map_map, List.length_map, List.enum_length]
    have : (SatelliteNode.index ∘ fun ir : Nat × RecordResult =>
        buildNode ((data.results.getD []).take 80).length ir.2 ir.1) = Prod.fst := by
      funext ir
      simp [buildNode]
    rw [this]
    exact List.enum_map_fst _
  · rw [hsat, hlin]
  · rw [hlin, hlen]
  · rw [hsat]
    exact buildScene_eq data

/-- C9, as stated, fails: a record carrying the explicit score 0 and two
reasons is drawn with severity 2. -/
theorem severityScore_explicit_zero_counterexample :
    (⟨4, "Intrusion", "High", some ["High error rate", "Many connections"], some 0⟩
        : RecordResult).severity_score = some 0
      ∧ severityScore
          ⟨4, "Intrusion", "High", some ["High error rate", "Many connections"], some 0⟩ = 2
      ∧ severityScore
          ⟨4, "Intrusion", "High", some ["High error rate", "Many connections"], some 0⟩ ≠ 0 := by
  refine ⟨rfl, ?_, ?_⟩ <;> simp [severityScore]

/-- C9, amended. The severity of a record is its `severity_score` whenever
that field is present and not zero, and is the number of entries of `reasons`
(0 when `reasons` is absent) when the field is absent or zero; that severity
is the one stored with the node and the one its radius and size are computed
from. -/
theorem severityScore_selection (record : RecordResult) :
    (∀ s : ℚ, record.severity_score = some s → s ≠ 0 → severityScore record = s)
      ∧ ((record.severity_score = none ∨ record.severity_score = some 0) →
          severityScore record = ((record.reasons.getD []).length : ℚ))
      ∧ (∀ count index : Nat,
          (buildNode count record index).severityScore = severityScore record
            ∧ (buildNode count record index).radius
                = (if record.prediction = "Intrusion" then 7 else 5)
                  + severityScore record * (1 / 4)
            ∧ (buildNode count record index).nodeSize
                = 1 / 4 + min (severityScore record * (3 / 20)) (3 / 5)) := by
  refine ⟨?_, ?_, ?_⟩
  · intro s hs hne
    simp [severityScore, hs, hne]
  · intro h
    rcases h with h | h <;> cases hr : record.reasons <;> simp [severityScore, h, hr]
  · intro count index
    refine ⟨rfl, ?_, rfl⟩
    by_cases hp : record.prediction = "Intrusion" <;> simp [buildNode, hp]

/-- Witness of C9, amended: an explicit score of 3 is used as it is, and an
absent score gives the number of reasons. -/
theorem severityScore_selection_witness :
    severityScore ⟨5, "Intrusion", "High", some ["High error rate"], some 3⟩ = 3
      ∧ severityScore ⟨6, "Normal", "Low", some ["a", "b"], none⟩
        = (((some ["a", "b"] : Option (List String)).getD []).length : ℚ) :=
  ⟨(severityScore_selection ⟨5, "Intrusion", "High", some ["High error rate"], some 3⟩).1
      3 rfl (by norm_num),
   (severityScore_selection ⟨6, "Normal", "Low", some ["a", "b"], none⟩).2.1 (Or.inl rfl)⟩

/-! ## Properties of the chart -/

theorem chartsCreated_append (a b : List ChartEvent) :
    chartsCreated (a ++ b) = chartsCreated a + chartsCreated b := by
  induction a with
  | nil => simp [chartsCreated]
  | cons e a ih =>
    cases e with
    | created id n i =>
      simp [chartsCreated, ih]
      omega
    | destroyed id => simp [chartsCreated, ih]

theorem foldl_createPieChart (datas : List PredictionResponse) (d : Dom) (hne : datas ≠ []) :
    (datas.foldl (fun d data => createPieChart data d) d).pieChart
        = some (chartsCreated d.chartLog + datas.length - 1)
      ∧ (datas.foldl (fun d data => createPieChart data d) d).chartLog
        = d.chartLog
          ++ (match d.pieChart with
              | some chart => [ChartEvent.destroyed chart]
              | none => [])
          ++ chartTrace (chartsCreated d.chartLog) datas := by
  induction datas generalizing d with
  | nil => exact absurd rfl hne
  | cons data rest ih =>
    have h1 : (createPieChart data d).pieChart = some (chartsCreated d.chartLog) := by
      cases hp : d.pieChart <;>
        simp [createPieChart, hp, chartsCreated_append, chartsCreated]
    have h2 : (createPieChart data d).chartLog
        = d.chartLog
          ++ (match d.pieChart with
              | some chart => [ChartEvent.destroyed chart]
              | none => [])
          ++ [ChartEvent.created (chartsCreated d.chartLog)
                data.normal_count data.intrusion_count] := by
      cases hp : d.pieChart <;>
        simp [createPieChart, hp, chartsCreated_append, chartsCreated]
    cases rest with
    | nil =>
      refine ⟨?_, ?_⟩
      · simpa using h1
      · simpa [chartTrace] using h2
    | cons next rest =>
      have h := ih (createPieChart data d) (by simp)
      have h3 : chartsCreated (createPieChart data d).chartLog
          = chartsCreated d.chartLog + 1 := by
        rw [h2]
        cases hp : d.pieChart <;> simp [chartsCreated_append, chartsCreated]
      rw [List.foldl_cons]
      refine ⟨?_, ?_⟩
      · rw [h.1, h3]
        simp only [List.length_cons]
        congr 1
        omega
      · rw [h.2, h3, h1, h2]
        simp [chartTrace]

theorem chartsCreated_chartTrace (datas : List PredictionResponse) (i : Nat) :
    chartsCreated (chartTrace i datas) = datas.length := by
  induction datas generalizing i with
  | nil => rfl
  | cons data rest ih =>
    cases rest with
    | nil => rfl
    | cons next rest =>
      have h := ih (i + 1)
      simp only [chartTrace, chartsCreated, h, List.length_cons]

theorem wasCreated_chartTrace (datas : List PredictionResponse) (i j : Nat) :
    wasCreated (chartTrace i datas) j = true ↔ i ≤ j ∧ j < i + datas.length := by
  induction datas generalizing i with
  | nil => simp [chartTrace, wasCreated]
  | cons data rest ih =>
    cases rest with
    | nil =>
      simp [chartTrace, wasCreated]
      omega
    | cons next rest =>
      have h := ih (i + 1)
      unfold wasCreated at h ⊢
      simp only [chartTrace, List.any_cons, Bool.or_eq_true, h, beq_iff_eq, List.length_cons,
        Bool.false_or]
      omega

theorem wasDestroyed_chartTrace (datas : List PredictionResponse) (i j : Nat) :
    wasDestroyed (chartTrace i datas) j = true ↔ i ≤ j ∧ j + 1 < i + datas.length := by
  induction datas generalizing i with
  | nil =>
    simp [chartTrace, wasDestroyed]
    omega
  | cons data rest ih =>
    cases rest with
    | nil =>
      simp [chartTrace, wasDestroyed]
    | cons next rest =>
      have h := ih (i + 1)
      unfold wasDestroyed at h ⊢
      simp only [chartTrace, List.any_cons, Bool.or_eq_true, h, beq_iff_eq, List.length_cons,
        Bool.false_or]
      omega

theorem liveCharts_chartTrace (datas : List PredictionResponse) (hne : datas ≠ []) :
    liveCharts (chartTrace 0 datas) = [datas.length - 1] := by
  obtain ⟨m, hm⟩ : ∃ m, datas.length = m + 1 := by
    cases datas with
    | nil => exact absurd rfl hne
    | cons data rest => exact ⟨rest.length, rfl⟩
  unfold liveCharts
  rw [chartsCreated_chartTrace, hm, List.range_succ, List.filter_append]
  have hnil : (List.range m).filter
      (fun id => wasCreated (chartTrace 0 datas) id && !wasDestroyed (chartTrace 0 datas) id)
      = [] := by
    rw [List.filter_eq_nil_iff]
    intro j hj
    have hj2 : j < m := List.mem_range.mp hj
    have hd : wasDestroyed (chartTrace 0 datas) j = true :=
      (wasDestroyed_chartTrace datas 0 j).mpr (by omega)
    simp [hd]
  have hc : wasCreated (chartTrace 0 datas) m = true :=
    (wasCreated_chartTrace datas 0 m).mpr (by omega)
  have hd : wasDestroyed (chartTrace 0 datas) m = false := by
    cases h : wasDestroyed (chartTrace 0 datas) m with
    | false => rfl
    | true =>
      have := (wasDestroyed_chartTrace datas 0 m).mp h
      omega
  rw [hnil]
  simp [hc, hd]

theorem getLast_chartTrace (datas : List PredictionResponse) (i : Nat) :
    (chartTrace i datas).getLast?
      = datas.getLast?.map (fun data =>
          ChartEvent.created (i + datas.length - 1) data.normal_count data.intrusion_count) := by
  induction datas generalizing i with
  | nil => rfl
  | cons data rest ih =>
    cases rest with
    | nil => simp [chartTrace]
    | cons next rest =>
      have h := ih (i + 1)
      obtain ⟨e, es, hes⟩ : ∃ e es, chartTrace (i + 1) (next :: rest) = e :: es := by
        cases rest <;> simp [chartTrace]
      have hi : i + 1 + (next :: rest).length - 1 = i + (data :: next :: rest).length - 1 := by
        simp only [List.length_cons]
        omega
      rw [chartTrace, hes, List.getLast?_cons_cons, List.getLast?_cons_cons, ← hes, h, hi,
        List.getLast?_cons_cons]

/-- C5. Starting from a page with no chart (nothing held in `pieChart`, no
chart ever created), after any non-empty run of `createPieChart` calls exactly
one instance is live, it is the one the last call created and the one held in
`pieChart`, and every earlier instance was destroyed right after its creation
and before the next creation. -/
theorem createPieChart_single_instance (datas : List PredictionResponse) (d : Dom)
    (hno : d.pieChart = none) (hlog : d.chartLog = []) (hne : datas ≠ []) :
    (datas.foldl (fun d data => createPieChart data d) d).pieChart = some (datas.length - 1)
      ∧ liveCharts (datas.foldl (fun d data => createPieChart data d) d).chartLog
          = [datas.length - 1]
      ∧ (datas.foldl (fun d data => createPieChart data d) d).chartLog.getLast?
          = datas.getLast?.map (fun data =>
              ChartEvent.created (datas.length - 1) data.normal_count data.intrusion_count)
      ∧ (datas.foldl (fun d data => createPieChart data d) d).chartLog = chartTrace 0 datas := by
  have h := foldl_createPieChart datas d hne
  have hl : (datas.foldl (fun d data => createPieChart data d) d).chartLog
      = chartTrace 0 datas := by
    rw [h.2, hno, hlog]
    simp [chartsCreated]
  refine ⟨?_, ?_, ?_, hl⟩
  · rw [h.1, hlog]
    simp [chartsCreated]
  · rw [hl]
    exact liveCharts_chartTrace datas hne
  · rw [hl, getLast_chartTrace]
    simp

/-- Witness of C5: two submissions on the page as served. -/
theorem createPieChart_single_instance_witness :
    ([(⟨none, some 10, some 4, some 6, some 40, some 60, some []⟩ : PredictionResponse),
        ⟨none, some 5, some 5, some 0, some 100, some 0, some []⟩].foldl
          (fun d data => createPieChart data d) Dom.initial).pieChart = some 1
      ∧ liveCharts
          ([(⟨none, some 10, some 4, some 6, some 40, some 60, some []⟩ : PredictionResponse),
            ⟨none, some 5, some 5, some 0, some 100, some 0, some []⟩].foldl
              (fun d data => createPieChart data d) Dom.initial).chartLog = [1]
      ∧ ([(⟨none, some 10, some 4, some 6, some 40, some 60, some []⟩ : PredictionResponse),
            ⟨none, some 5, some 5, some 0, some 100, some 0, some []⟩].foldl
              (fun d data => createPieChart data d) Dom.initial).chartLog
          = [ChartEvent.created 0 (some 6) (some 4), ChartEvent.destroyed 0,
             ChartEvent.created 1 (some 0) (some 5)] := by
  have h := createPieChart_single_instance
    [(⟨none, some 10, some 4, some 6, some 40, some 60, some []⟩ : PredictionResponse),
      ⟨none, some 5, some 5, some 0, some 100, some 0, some []⟩]
    Dom.initial rfl rfl (by simp)
  exact ⟨h.1, h.2.1, h.2.2.2⟩

/-! ## Properties of the tooltip label -/

theorem roundHalfEven_of_near (m : ℚ) (z : ℤ) (h : |m - z| < 1 / 2) : roundHalfEven m = z := by
  rw [abs_lt] at h
  by_cases hz : (z : ℚ) ≤ m
  · have hf : ⌊m⌋ = z := by
      rw [Int.floor_eq_iff]
      constructor
      · exact hz
      · linarith [h.2]
    unfold roundHalfEven
    rw [hf, if_pos (by linarith [h.2])]
  · have hf : ⌊m⌋ = z - 1 := by
      rw [Int.floor_eq_iff]
      push_cast
      constructor
      · linarith [h.1]
      · push_neg at hz
        linarith
    unfold roundHalfEven
    rw [hf]
    push_cast
    rw [if_neg (by linarith [h.1]), if_pos (by linarith [h.1])]
    ring

theorem roundHalfEven_abs (m : ℚ) : |(roundHalfEven m : ℚ) - m| ≤ 1 / 2 := by
  have h1 := Int.floor_le m
  have h2 := Int.lt_floor_add_one m
  unfold roundHalfEven
  rw [abs_le]
  split_ifs with ha hb hc
  · constructor <;> linarith
  · push_cast
    constructor <;> linarith
  · constructor <;> linarith
  · push_cast
    push_neg at ha hb
    constructor <;> linarith

theorem log_eq_of_bounds (x : ℚ) (e : ℤ) (hx : 0 < x) (h1 : (2 : ℚ) ^ e ≤ x)
    (h2 : x < (2 : ℚ) ^ (e + 1)) : Int.log 2 x = e := by
  have hb : 1 < 2 := by norm_num
  have ha : e ≤ Int.log 2 x := (Int.zpow_le_iff_le_log hb hx).mp (by exact_mod_cast h1)
  have hc : Int.log 2 x < e + 1 := (Int.lt_zpow_iff_log_lt hb hx).mp (by exact_mod_cast h2)
  omega

theorem toBinary64_eq (x : ℚ) (e z : ℤ) (hx : 0 < x) (h1 : (2 : ℚ) ^ e ≤ x)
    (h2 : x < (2 : ℚ) ^ (e + 1)) (he : -1022 ≤ e) (hz : |x / (2 : ℚ) ^ (e - 52) - z| < 1 / 2) :
    toBinary64 x = z * (2 : ℚ) ^ (e - 52) := by
  unfold toBinary64
  rw [if_neg (ne_of_gt hx), abs_of_pos hx, log_eq_of_bounds x e hx h1 h2, max_eq_left he]
  simp only []
  rw [roundHalfEven_of_near _ z hz]

theorem toBinary64_relative (x : ℚ) (hx : (2 : ℚ) ^ (-1022 : ℤ) ≤ x) :
    |toBinary64 x - x| ≤ x / 2 ^ 53 := by
  have hb : 1 < 2 := by norm_num
  have hpos : 0 < x := lt_of_lt_of_le (by positivity) hx
  have hlog : -1022 ≤ Int.log 2 x := (Int.zpow_le_iff_le_log hb hpos).mp (by exact_mod_cast hx)
  have hle : (2 : ℚ) ^ Int.log 2 x ≤ x := by exact_mod_cast Int.zpow_log_le_self hb hpos
  unfold toBinary64
  rw [if_neg (ne_of_gt hpos), abs_of_pos hpos, max_eq_left hlog]
  simp only []
  have hu : 0 < (2 : ℚ) ^ (Int.log 2 x - 52) := by positivity
  have hr := roundHalfEven_abs (x / (2 : ℚ) ^ (Int.log 2 x - 52))
  have hsplit : (2 : ℚ) ^ (Int.log 2 x - 52) = (2 : ℚ) ^ Int.log 2 x / 2 ^ 52 := by
    rw [zpow_sub₀ (by norm_num : (2 : ℚ) ≠ 0)]
    norm_num
  have key : (roundHalfEven (x / (2 : ℚ) ^ (Int.log 2 x - 52)) : ℚ) * (2 : ℚ) ^ (Int.log 2 x - 52) - x
      = ((roundHalfEven (x / (2 : ℚ) ^ (Int.log 2 x - 52)) : ℚ) - x / (2 : ℚ) ^ (Int.log 2 x - 52))
        * (2 : ℚ) ^ (Int.log 2 x - 52) := by
    field_simp
  rw [key, abs_mul, abs_of_pos hu]
  calc |(roundHalfEven (x / (2 : ℚ) ^ (Int.log 2 x - 52)) : ℚ) - x / (2 : ℚ) ^ (Int.log 2 x - 52)|
        * (2 : ℚ) ^ (Int.log 2 x - 52)
      ≤ 1 / 2 * (2 : ℚ) ^ (Int.log 2 x - 52) := by
        exact mul_le_mul_of_nonneg_right hr (le_of_lt hu)
    _ = (2 : ℚ) ^ Int.log 2 x / 2 ^ 53 := by
        rw [hsplit]
        norm_num
        ring
    _ ≤ x / 2 ^ 53 := by
        exact div_le_div_of_nonneg_right hle (by positivity)


theorem toBinary64_natCast (k : ℕ) (hk : k < 2 ^ 53) : toBinary64 (k : ℚ) = k := by
  rcases Nat.eq_zero_or_pos k with h0 | hpos
  · subst h0
    simp [toBinary64]
  · have hk0 : k ≠ 0 := Nat.pos_iff_ne_zero.mp hpos
    have hL1 : 2 ^ Nat.log 2 k ≤ k := Nat.pow_log_le_self 2 hk0
    have hL2 : k < 2 ^ (Nat.log 2 k + 1) := Nat.lt_pow_succ_log_self (by norm_num) k
    have hL3 : Nat.log 2 k < 53 := by
      have : 2 ^ Nat.log 2 k < 2 ^ 53 := lt_of_le_of_lt hL1 hk
      exact (Nat.pow_lt_pow_iff_right (by norm_num)).mp this
    obtain ⟨d, hd⟩ : ∃ d : ℕ, Nat.log 2 k + d = 52 := ⟨52 - Nat.log 2 k, by omega⟩
    have hexp : ((Nat.log 2 k : ℕ) : ℤ) - 52 = -(d : ℤ) := by omega
    have hx : (0 : ℚ) < (k : ℚ) := by exact_mod_cast hpos
    have h := toBinary64_eq (k : ℚ) (Nat.log 2 k : ℤ) ((k * 2 ^ d : ℕ) : ℤ) hx
      (by rw [zpow_natCast]; exact_mod_cast hL1)
      (by
        have : ((Nat.log 2 k : ℕ) : ℤ) + 1 = ((Nat.log 2 k + 1 : ℕ) : ℤ) := by push_cast; ring
        rw [this, zpow_natCast]
        exact_mod_cast hL2)
      (by omega)
      (by
        rw [hexp, zpow_neg, zpow_natCast]
        push_cast
        rw [div_inv_eq_mul, sub_self, abs_zero]
        norm_num)
    rw [h, hexp, zpow_neg, zpow_natCast]
    push_cast
    field_simp

theorem datasetTotal_pair (n i : ℕ) (h : n + i < 2 ^ 53) :
    datasetTotal [n, i] = ((n + i : ℕ) : ℚ) := by
  show toBinary64 (toBinary64 (0 + toBinary64 (n : ℚ)) + toBinary64 (i : ℚ)) = _
  rw [zero_add]
  rw [toBinary64_natCast n (by omega), toBinary64_natCast n (by omega),
    toBinary64_natCast i (by omega)]
  rw [← Nat.cast_add, toBinary64_natCast (n + i) h]

theorem two_roundings (q : ℚ) (h0 : 1 / 2 ^ 53 ≤ q) (h1 : q ≤ 1) :
    |toBinary64 (toBinary64 q * 100) - q * 100| ≤ 1 / 2 ^ 45
      ∧ 0 ≤ toBinary64 (toBinary64 q * 100) := by
  have hsmall : (2 : ℚ) ^ (-1022 : ℤ) ≤ 1 / 2 ^ 54 := by
    rw [zpow_neg, one_div]
    rw [inv_le_inv₀ (by positivity) (by positivity)]
    rw [zpow_ofNat]
    exact pow_le_pow_right₀ (by norm_num) (by norm_num)
  have hq := toBinary64_relative q (le_trans hsmall (le_trans (by norm_num) h0))
  rw [abs_le] at hq
  have hqpos : (0 : ℚ) < q := lt_of_lt_of_le (by positivity) h0
  have hq1 : q / 2 ≤ toBinary64 q := by
    have : q / 2 ^ 53 ≤ q / 2 := by
      apply div_le_div_of_nonneg_left (le_of_lt hqpos) (by norm_num) (by norm_num)
    linarith [hq.1]
  have hp := toBinary64_relative (toBinary64 q * 100) (by
    have : (1 : ℚ) / 2 ^ 54 ≤ q / 2 * 100 := by
      have : (1 : ℚ) / 2 ^ 54 ≤ 1 / 2 ^ 53 / 2 * 100 := by norm_num
      linarith
    exact le_trans hsmall (le_trans this (by linarith)))
  rw [abs_le] at hp
  have e1 : q / 2 ^ 53 ≤ 1 / 2 ^ 53 := by
    apply div_le_div_of_nonneg_right h1 (by positivity)
  have e2 : toBinary64 q * 100 / 2 ^ 53 ≤ (1 + 1 / 2 ^ 53) * 100 / 2 ^ 53 := by
    apply div_le_div_of_nonneg_right _ (by positivity)
    nlinarith [hq.2]
  have e3 : (1 + 1 / 2 ^ 53) * 100 / 2 ^ 53 + 100 * (1 / 2 ^ 53) ≤ (1 : ℚ) / 2 ^ 45 := by
    norm_num
  have e4 : 0 ≤ toBinary64 q * 100 / 2 ^ 53 := by
    apply div_nonneg _ (by positivity)
    linarith
  constructor
  · rw [abs_le]
    constructor <;> linarith [hp.1, hp.2, hq.1, hq.2]
  · have : toBinary64 q * 100 / 2 ^ 53 ≤ toBinary64 q * 100 / 2 := by
      apply div_le_div_of_nonneg_left (by linarith) (by norm_num) (by norm_num)
    linarith [hp.1]


theorem tooltip_bound (v t : ℕ) (ht : 0 < t) (hlt : t < 2 ^ 53) (hvt : v ≤ t) :
    |toBinary64 (toBinary64 ((v : ℚ) / (t : ℚ)) * 100) - (v : ℚ) / (t : ℚ) * 100| ≤ 1 / 2 ^ 45
      ∧ 0 ≤ toBinary64 (toBinary64 ((v : ℚ) / (t : ℚ)) * 100) := by
  have htq : (0 : ℚ) < (t : ℚ) := by exact_mod_cast ht
  rcases Nat.eq_zero_or_pos v with h0 | hpos
  · subst h0
    simp [toBinary64]
  · apply two_roundings
    · have h1 : (1 : ℚ) ≤ (v : ℚ) := by exact_mod_cast hpos
      have h2 : (t : ℚ) ≤ 2 ^ 53 := by exact_mod_cast le_of_lt hlt
      rw [le_div_iff₀ htq]
      have h3 : (1 : ℚ) / 2 ^ 53 * (t : ℚ) ≤ 1 / 2 ^ 53 * 2 ^ 53 :=
        mul_le_mul_of_nonneg_left h2 (by positivity)
      have h4 : (1 : ℚ) / 2 ^ 53 * 2 ^ 53 = 1 := by norm_num
      linarith
    · rw [div_le_one htq]
      exact_mod_cast hvt

theorem hundredthsOf_near (x : ℚ) (hx : 0 ≤ x) :
    |(hundredthsOf x : ℚ) / 100 - x| ≤ 1 / 200 := by
  have h0 : (0 : ℚ) ≤ x * 100 + 1 / 2 := by linarith
  have h1 : (hundredthsOf x : ℚ) ≤ x * 100 + 1 / 2 := Nat.floor_le h0
  have h2 : x * 100 + 1 / 2 < (hundredthsOf x : ℚ) + 1 := Nat.lt_floor_add_one _
  rw [abs_le]
  constructor <;> linarith

theorem hundredthsOf_stable (p P : ℚ) (δ : ℚ) (hp : 0 ≤ p) (hP : 0 ≤ P)
    (hd : |p - P| ≤ δ) (hfar : ∀ z : ℤ, 100 * δ < |P * 100 + 1 / 2 - z|) :
    hundredthsOf p = hundredthsOf P := by
  have h0 : (0 : ℚ) ≤ P * 100 + 1 / 2 := by linarith
  have h1 : (hundredthsOf P : ℚ) ≤ P * 100 + 1 / 2 := Nat.floor_le h0
  have h2 : P * 100 + 1 / 2 < (hundredthsOf P : ℚ) + 1 := Nat.lt_floor_add_one _
  have ha := hfar (hundredthsOf P : ℕ)
  have hb := hfar ((hundredthsOf P : ℕ) + 1)
  rw [abs_le] at hd
  push_cast at ha hb
  rw [abs_of_nonneg (by linarith)] at ha
  rw [abs_of_neg (by linarith)] at hb
  unfold hundredthsOf
  rw [Nat.floor_eq_iff (by linarith)]
  unfold hundredthsOf at h1 h2 ha hb
  constructor <;> linarith [hd.1, hd.2]

theorem percentage_pair (n i v : ℕ) (hv : v = n ∨ v = i) (hpos : 0 < n + i)
    (hlt : n + i < 2 ^ 53) (label : String) :
    percentage v [n, i]
        = some (fixed2 (hundredthsOf
            (toBinary64 (toBinary64 ((v : ℚ) / ((n : ℚ) + (i : ℚ))) * 100))))
      ∧ tooltipLabel label v [n, i]
        = some (label ++ ": " ++ toString v ++ " ("
            ++ fixed2 (hundredthsOf
              (toBinary64 (toBinary64 ((v : ℚ) / ((n : ℚ) + (i : ℚ))) * 100))) ++ "%)")
      ∧ |(hundredthsOf (toBinary64 (toBinary64 ((v : ℚ) / ((n : ℚ) + (i : ℚ))) * 100)) : ℚ) / 100
          - (v : ℚ) / ((n : ℚ) + (i : ℚ)) * 100| ≤ 1 / 200 + 1 / 2 ^ 45
      ∧ ((∀ z : ℤ, 100 * (1 / 2 ^ 45)
            < |(v : ℚ) / ((n : ℚ) + (i : ℚ)) * 100 * 100 + 1 / 2 - z|) →
          hundredthsOf (toBinary64 (toBinary64 ((v : ℚ) / ((n : ℚ) + (i : ℚ))) * 100))
            = hundredthsOf ((v : ℚ) / ((n : ℚ) + (i : ℚ)) * 100)) := by
  have hvt : v ≤ n + i := by rcases hv with h | h <;> omega
  have hb := tooltip_bound v (n + i) hpos hlt hvt
  rw [Nat.cast_add] at hb
  have htq : (0 : ℚ) < (n : ℚ) + (i : ℚ) := by exact_mod_cast hpos
  have hq0 : 0 ≤ (v : ℚ) / ((n : ℚ) + (i : ℚ)) := by positivity
  have hq1 : (v : ℚ) / ((n : ℚ) + (i : ℚ)) ≤ 1 := by
    rw [div_le_one htq]
    exact_mod_cast hvt
  have habs := abs_le.mp hb.1
  have hper : percentage v [n, i]
      = some (fixed2 (hundredthsOf
          (toBinary64 (toBinary64 ((v : ℚ) / ((n : ℚ) + (i : ℚ))) * 100)))) := by
    unfold percentage
    simp only []
    rw [datasetTotal_pair n i hlt, toBinary64_natCast v (by omega), Nat.cast_add]
    have hv53 : (v : ℚ) < 2 ^ 53 := by exact_mod_cast (by omega : v < 2 ^ 53)
    have ht53 : (n : ℚ) + (i : ℚ) < 2 ^ 53 := by exact_mod_cast hlt
    have hbig : (2 : ℚ) ^ 53 ≤ 2 ^ 1024 := pow_le_pow_right₀ (by norm_num) (by norm_num)
    rw [if_neg (by
      intro h
      rcases h with h | h <;> linarith)]
    rw [if_neg (ne_of_gt htq)]
    rw [if_neg (by
      intro h
      have : (101 : ℚ) < 10 ^ 21 := by norm_num
      have : (1 : ℚ) / 2 ^ 45 ≤ 1 := by norm_num
      linarith [habs.2])]
  refine ⟨hper, ?_, ?_, ?_⟩
  · unfold tooltipLabel
    rw [if_neg (by omega), hper]
    rfl
  · have h1 := hundredthsOf_near _ hb.2
    have h2 := abs_sub_le
      ((hundredthsOf (toBinary64 (toBinary64 ((v : ℚ) / ((n : ℚ) + (i : ℚ))) * 100)) : ℚ) / 100)
      (toBinary64 (toBinary64 ((v : ℚ) / ((n : ℚ) + (i : ℚ))) * 100))
      ((v : ℚ) / ((n : ℚ) + (i : ℚ)) * 100)
    linarith [hb.1]
  · intro hfar
    exact hundredthsOf_stable _ _ (1 / 2 ^ 45) hb.2 (by positivity) hb.1 hfar

theorem toBinary64_23_160 :
    toBinary64 ((23 : ℚ) / 160) = 5179139571476070 * (2 : ℚ) ^ (-55 : ℤ) := by
  have h := toBinary64_eq ((23 : ℚ) / 160) (-3) 5179139571476070 (by norm_num)
    (by norm_num) (by norm_num) (by norm_num)
    (by
      rw [abs_lt]
      constructor <;> norm_num)
  simpa using h

theorem toBinary64_23_160_times_100 :
    toBinary64 (5179139571476070 * (2 : ℚ) ^ (-55 : ℤ) * 100)
      = 8092405580431359 * (2 : ℚ) ^ (-49 : ℤ) := by
  have h := toBinary64_eq (5179139571476070 * (2 : ℚ) ^ (-55 : ℤ) * 100) 3 8092405580431359
    (by norm_num) (by norm_num) (by norm_num) (by norm_num)
    (by
      rw [abs_lt]
      constructor <;> norm_num)
  simpa using h

/-- C6, as stated, fails: for the counts 23 and 137 the slice of value 23 is
14.375 percent of the total, which rounds to 14.38, and the label shows 14.37:
the quotient and the product are rounded to binary64 and the product is below
14.375. -/
theorem tooltip_percentage_counterexample :
    percentage 23 [23, 137] = some "14.37"
      ∧ tooltipLabel "Normal Traffic" 23 [23, 137] = some "Normal Traffic: 23 (14.37%)"
      ∧ hundredthsOf ((23 : ℚ) / ((23 : ℚ) + 137) * 100) = 1438
      ∧ fixed2 (hundredthsOf ((23 : ℚ) / ((23 : ℚ) + 137) * 100)) = "14.38"
      ∧ roundHalfEven ((23 : ℚ) / ((23 : ℚ) + 137) * 100 * 100) = 1438 := by
  have hx : hundredthsOf (toBinary64 (toBinary64 (((23 : ℕ) : ℚ) / (((23 : ℕ) : ℚ) + ((137 : ℕ) : ℚ))) * 100))
      = 1437 := by
    have e : (((23 : ℕ) : ℚ) / (((23 : ℕ) : ℚ) + ((137 : ℕ) : ℚ))) = (23 : ℚ) / 160 := by norm_num
    rw [e, toBinary64_23_160, toBinary64_23_160_times_100]
    unfold hundredthsOf
    rw [Nat.floor_eq_iff (by norm_num)]
    constructor <;> norm_num
  have hexact : hundredthsOf ((23 : ℚ) / ((23 : ℚ) + 137) * 100) = 1438 := by
    unfold hundredthsOf
    rw [Nat.floor_eq_iff (by norm_num)]
    constructor <;> norm_num
  have h := percentage_pair 23 137 23 (Or.inl rfl) (by norm_num) (by norm_num)
    "Normal Traffic"
  rw [hx] at h
  refine ⟨?_, ?_, hexact, ?_, ?_⟩
  · rw [h.1]
    decide
  · rw [h.2.1]
    decide
  · rw [hexact]
    decide
  · have hf : ⌊(23 : ℚ) / ((23 : ℚ) + 137) * 100 * 100⌋ = 1437 := by
      rw [Int.floor_eq_iff]
      constructor <;> norm_num
    unfold roundHalfEven
    rw [hf]
    norm_num

/-- The chart is built from the two counts of the response. -/
theorem createPieChart_data (data : PredictionResponse) (d : Dom) :
    ∃ id, (createPieChart data d).chartLog.getLast?
      = some (ChartEvent.created id data.normal_count data.intrusion_count) := by
  unfold createPieChart
  cases d.pieChart with
  | none => exact ⟨chartsCreated d.chartLog, by simp⟩
  | some chart =>
    exact ⟨chartsCreated (d.chartLog ++ [ChartEvent.destroyed chart]), by simp⟩

/-- C6, amended. For non-negative integer counts with a positive sum below
`2 ^ 53`, the percentage shown in the label of a slice of value `v` (one of
the two counts) is `toFixed(2)` of the binary64 value of `(v / total) * 100`,
the quotient and the product each rounded to the nearest binary64 number. It
is within `0.005 + 2 ^ -45` of the exact `v / total * 100`, and it is that
exact percentage rounded to 2 decimals whenever the exact percentage is
farther than `2 ^ -45` from every point half way between two hundredths. It
is computed from the two counts alone: the chart holds the counts, and
`intrusion_percentage` and `normal_percentage` do not reach it. -/
theorem tooltip_percentage_shown (n i v : ℕ) (hv : v = n ∨ v = i) (hpos : 0 < n + i)
    (hlt : n + i < 2 ^ 53) (label : String) :
    percentage v [n, i]
        = some (fixed2 (hundredthsOf
            (toBinary64 (toBinary64 ((v : ℚ) / ((n : ℚ) + (i : ℚ))) * 100))))
      ∧ tooltipLabel label v [n, i]
        = some (label ++ ": " ++ toString v ++ " ("
            ++ fixed2 (hundredthsOf
              (toBinary64 (toBinary64 ((v : ℚ) / ((n : ℚ) + (i : ℚ))) * 100))) ++ "%)")
      ∧ |(hundredthsOf (toBinary64 (toBinary64 ((v : ℚ) / ((n : ℚ) + (i : ℚ))) * 100)) : ℚ) / 100
          - (v : ℚ) / ((n : ℚ) + (i : ℚ)) * 100| ≤ 1 / 200 + 1 / 2 ^ 45
      ∧ ((∀ z : ℤ, 100 * (1 / 2 ^ 45)
            < |(v : ℚ) / ((n : ℚ) + (i : ℚ)) * 100 * 100 + 1 / 2 - z|) →
          hundredthsOf (toBinary64 (toBinary64 ((v : ℚ) / ((n : ℚ) + (i : ℚ))) * 100))
            = hundredthsOf ((v : ℚ) / ((n : ℚ) + (i : ℚ)) * 100))
      ∧ (∀ (data : PredictionResponse) (d : Dom) (a b : Option ℚ),
          createPieChart { data with intrusion_percentage := a, normal_percentage := b } d
              = createPieChart data d
            ∧ ∃ id, (createPieChart data d).chartLog.getLast?
              = some (ChartEvent.created id data.normal_count data.intrusion_count)) := by
  have h := percentage_pair n i v hv hpos hlt label
  exact ⟨h.1, h.2.1, h.2.2.1, h.2.2.2, fun data d _ _ => ⟨rfl, createPieChart_data data d⟩⟩

/-- Witness of C6, amended: the counts 6 and 4 and the slice of value 6. -/
theorem tooltip_percentage_shown_witness :
    percentage 6 [6, 4]
        = some (fixed2 (hundredthsOf
            (toBinary64 (toBinary64 (((6 : ℕ) : ℚ) / (((6 : ℕ) : ℚ) + ((4 : ℕ) : ℚ))) * 100))))
      ∧ |(hundredthsOf (toBinary64
            (toBinary64 (((6 : ℕ) : ℚ) / (((6 : ℕ) : ℚ) + ((4 : ℕ) : ℚ))) * 100)) : ℚ) / 100
          - ((6 : ℕ) : ℚ) / (((6 : ℕ) : ℚ) + ((4 : ℕ) : ℚ)) * 100| ≤ 1 / 200 + 1 / 2 ^ 45 :=
  ⟨(tooltip_percentage_shown 6 4 6 (Or.inl rfl) (by norm_num) (by norm_num) "Normal Traffic").1,
   (tooltip_percentage_shown 6 4 6 (Or.inl rfl) (by norm_num) (by norm_num)
      "Normal Traffic").2.2.1⟩

/-! ## Properties of the submission -/

/-- The function `populateTable` writes the table body and nothing else. -/
theorem populateTable_frame (results : Option (List RecordResult)) (d : Dom) :
    ∃ body, (populateTable results d).1 = { d with resultsTableBody := body } := by
  cases results with
  | none => exact ⟨[], rfl⟩
  | some results =>
    unfold populateTable
    simp only [foldl_appendRow]
    split
    · exact ⟨_, rfl⟩
    · exact ⟨_, rfl⟩

/-- The function `createPieChart` writes `pieChart` and the chart log and
nothing else. -/
theorem createPieChart_frame (data : PredictionResponse) (d : Dom) :
    ∃ chart log, createPieChart data d = { d with pieChart := chart, chartLog := log } := by
  unfold createPieChart
  cases d.pieChart with
  | none => exact ⟨_, _, rfl⟩
  | some chart => exact ⟨_, _, rfl⟩

/-- The function `displayResults` shows the results section and scrolls to
it, on every path. -/
theorem displayResults_shows (data : PredictionResponse) (d : Dom) :
    (displayResults data d).1.scrollRequests = d.scrollRequests + 1
      ∧ (displayResults data d).1.resultsSectionDisplay = "block" := by
  unfold displayResults
  simp only []
  obtain ⟨body, hb⟩ := populateTable_frame data.results
    (create3DVisualization data (createPieChart data
      { { d with resultsSectionDisplay := "block", scrollRequests := d.scrollRequests + 1 } with
        totalRecords := StatText.count data.total_records
        intrusionCount := StatText.count data.intrusion_count
        normalCount := StatText.count data.normal_count
        intrusionPercentage := StatText.percent data.intrusion_percentage
        normalPercentage := StatText.percent data.normal_percentage }))
  obtain ⟨chart, log, hc⟩ := createPieChart_frame data
      { { d with resultsSectionDisplay := "block", scrollRequests := d.scrollRequests + 1 } with
        totalRecords := StatText.count data.total_records
        intrusionCount := StatText.count data.intrusion_count
        normalCount := StatText.count data.normal_count
        intrusionPercentage := StatText.percent data.intrusion_percentage
        normalPercentage := StatText.percent data.normal_percentage }
  rw [hb, hc]
  exact ⟨rfl, rfl⟩

/-- C3. Whatever the awaits of the submit handler produce (a body that
renders, a body with an `error` field, a rejected request, an unparseable
body, a body whose rendering throws), the handler ends with the submit button
enabled, its label shown and its spinner hidden. -/
theorem submitHandler_restores_control (outcome : FetchOutcome) (d : Dom) :
    (submitHandler outcome d).analyzeBtnDisabled = false
      ∧ (submitHandler outcome d).btnTextDisplay = "inline"
      ∧ (submitHandler outcome d).loadingSpinnerDisplay = "none" :=
  ⟨rfl, rfl, rfl⟩

/-- C4, as stated, fails: the body with the empty `error` string is rendered;
the results section is shown, `displayResults` has scrolled to it, the stat
fields are overwritten, a chart is created, the 3D container receives a scene,
and the alert comes from the table code that throws on the missing
`results`. -/
theorem submitHandler_empty_error_counterexample :
    (⟨some "", none, none, none, none, none, none⟩ : PredictionResponse).error = some ""
      ∧ Dom.initial.resultsSectionDisplay = "none"
      ∧ (submitHandler (FetchOutcome.parsed (some ⟨some "", none, none, none, none, none, none⟩))
          Dom.initial).resultsSectionDisplay = "block"
      ∧ (submitHandler (FetchOutcome.parsed (some ⟨some "", none, none, none, none, none, none⟩))
          Dom.initial).scrollRequests = 1
      ∧ (submitHandler (FetchOutcome.parsed (some ⟨some "", none, none, none, none, none, none⟩))
          Dom.initial).totalRecords = StatText.count none
      ∧ (submitHandler (FetchOutcome.parsed (some ⟨some "", none, none, none, none, none, none⟩))
          Dom.initial).pieChart = some 0
      ∧ (submitHandler (FetchOutcome.parsed (some ⟨some "", none, none, none, none, none, none⟩))
          Dom.initial).threeDView
          = [[SceneObject.ambientLight, SceneObject.pointLight, SceneObject.centralNode]]
      ∧ (submitHandler (FetchOutcome.parsed (some ⟨some "", none, none, none, none, none, none⟩))
          Dom.initial).alerts
          = ["Error analyzing data: Cannot read properties of undefined (reading 'slice')"] := by
  refine ⟨rfl, rfl, ?_, ?_, ?_, ?_, ?_, ?_⟩ <;>
    simp [submitHandler, submitTry, displayResults, populateTable, create3DVisualization,
      createPieChart, alert, Dom.initial, chartsCreated, buildScene]

/-- C4, amended. Whenever the parsed body carries a non-empty `error` string,
or the request is rejected, or the body cannot be parsed, the handler raises
exactly one alert, whose text ends with the error message, and changes nothing
else but the submit control, which it restores: the results section, the
stat fields, the chart, the 3D container and the table body are as before, and
`displayResults`, which always shows the results section and scrolls to it,
has not run. -/
theorem submitHandler_no_render_on_failure (d : Dom) :
    (∀ (data : PredictionResponse) (message : String),
        data.error = some message → message ≠ "" →
        submitHandler (FetchOutcome.parsed (some data)) d
          = { d with
              alerts := d.alerts ++ ["Error: " ++ message]
              btnTextDisplay := "inline"
              loadingSpinnerDisplay := "none"
              analyzeBtnDisabled := false })
      ∧ (∀ error : JsError,
          submitHandler (FetchOutcome.rejected error) d
            = { d with
                alerts := d.alerts ++ ["Error analyzing data: " ++ error.message]
                btnTextDisplay := "inline"
                loadingSpinnerDisplay := "none"
                analyzeBtnDisabled := false })
      ∧ (∀ error : JsError,
          submitHandler (FetchOutcome.unparseable error) d
            = { d with
                alerts := d.alerts ++ ["Error analyzing data: " ++ error.message]
                btnTextDisplay := "inline"
                loadingSpinnerDisplay := "none"
                analyzeBtnDisabled := false })
      ∧ (∀ (data : PredictionResponse) (d0 : Dom),
          (displayResults data d0).1.scrollRequests = d0.scrollRequests + 1
            ∧ (displayResults data d0).1.resultsSectionDisplay = "block") := by
  refine ⟨?_, ?_, ?_, ?_⟩
  · intro data message herr hne
    simp [submitHandler, submitTry, herr, hne, alert]
  · intro error
    simp [submitHandler, submitTry, alert]
  · intro error
    simp [submitHandler, submitTry, alert]
  · intro data d0
    exact displayResults_shows data d0

/-- Witness of C4, amended: the body carrying the error `bad file`, on the
page as served. -/
theorem submitHandler_no_render_on_failure_witness :
    submitHandler (FetchOutcome.parsed (some ⟨some "bad file", none, none, none, none, none, none⟩))
        Dom.initial
      = { Dom.initial with
          alerts := Dom.initial.alerts ++ ["Error: " ++ "bad file"]
          btnTextDisplay := "inline"
          loadingSpinnerDisplay := "none"
          analyzeBtnDisabled := false } :=
  (submitHandler_no_render_on_failure Dom.initial).1
    ⟨some "bad file", none, none, none, none, none, none⟩ "bad file" rfl (by decide)

/-! ## Properties of the file intake -/

/-- C10, as stated, fails: after a drop of two files the file field holds
both of them, not the first alone. -/
theorem dropHandler_two_files_counterexample :
    (dropHandler [⟨"a.csv", 10⟩, ⟨"b.csv", 20⟩] Dom.initial).fileInputFiles
        = [⟨"a.csv", 10⟩, ⟨"b.csv", 20⟩]
      ∧ (dropHandler [⟨"a.csv", 10⟩, ⟨"b.csv", 20⟩] Dom.initial).fileInputFiles.length = 2
      ∧ (dropHandler [⟨"a.csv", 10⟩, ⟨"b.csv", 20⟩] Dom.initial).fileInputFiles
        ≠ [⟨"a.csv", 10⟩] := by
  decide

/-- C10, amended. After a drop carrying a non-empty list of files the file
field holds the dropped list as it is, all files in order (so exactly one
file when one file was dropped), and the filename label is shown and reads
`Selected: ` followed by the name of the first file; a drop carrying no files
leaves the file field and the label unchanged. -/
theorem dropHandler_intake (files : List File) (d : Dom) :
    (∀ (first : File) (rest : List File), files = first :: rest →
        (dropHandler files d).fileInputFiles = first :: rest
          ∧ (rest = [] → (dropHandler files d).fileInputFiles = [first])
          ∧ (dropHandler files d).fileNameText = "Selected: " ++ first.name
          ∧ (dropHandler files d).fileNameDisplay = "block")
      ∧ (files = [] →
          (dropHandler files d).fileInputFiles = d.fileInputFiles
            ∧ (dropHandler files d).fileNameText = d.fileNameText
            ∧ (dropHandler files d).fileNameDisplay = d.fileNameDisplay) := by
  refine ⟨?_, ?_⟩
  · intro first rest h
    subst h
    refine ⟨?_, ?_, ?_, ?_⟩
    · simp [dropHandler, displayFileName]
    · intro hr
      simp [dropHandler, displayFileName, hr]
    · simp [dropHandler, displayFileName]
    · simp [dropHandler, displayFileName]
  · intro h
    subst h
    simp [dropHandler]

/-- Witness of C10, amended: a drop of two files and a drop of none, on the
page as served. -/
theorem dropHandler_intake_witness :
    ((dropHandler [⟨"a.csv", 10⟩, ⟨"b.csv", 20⟩] Dom.initial).fileInputFiles
        = [⟨"a.csv", 10⟩, ⟨"b.csv", 20⟩]
      ∧ (dropHandler [⟨"a.csv", 10⟩, ⟨"b.csv", 20⟩] Dom.initial).fileNameText
        = "Selected: " ++ "a.csv")
      ∧ (dropHandler [] Dom.initial).fileInputFiles = Dom.initial.fileInputFiles :=
  ⟨⟨((dropHandler_intake [⟨"a.csv", 10⟩, ⟨"b.csv", 20⟩] Dom.initial).1
        ⟨"a.csv", 10⟩ [⟨"b.csv", 20⟩] rfl).1,
    ((dropHandler_intake [⟨"a.csv", 10⟩, ⟨"b.csv", 20⟩] Dom.initial).1
        ⟨"a.csv", 10⟩ [⟨"b.csv", 20⟩] rfl).2.2.1⟩,
   ((dropHandler_intake [] Dom.initial).2 rfl).1⟩

end UploadAndVisualize
